import Mathlib

/-!
Shallow embedding of the ffmpeg-restful service (src/unnamed/part_000, the
current revision of index.js) for checking its natural-language specification.

The service is a set of Express handlers driving ffmpeg/ffprobe subprocesses.
Each handler is embedded as a pure function from the request fields and the
(externally supplied) engine outcomes to the observable behaviour: the ordered
trace of subprocess spawns and HTTP responses, and — where a claim concerns
artifact cleanup — the set of files left on disk when the job ends.
-/

/-! ## Crop detection (/remove-letterbox)

The handler collects every stderr line containing the substring "crop=" into a
temp log file, then on stream end extracts all matches of the JS regex
`/crop=(\d+):(\d+):(\d+):(\d+)/g` from the log and keeps the last one.
-/

/-- A crop rectangle as parsed from one regex match: the four decimal
capture groups (width, height, x-offset, y-offset). -/
structure CropRegion where
  width : Nat
  height : Nat
  x : Nat
  y : Nat
deriving DecidableEq, Repr

/-- Decimal value of a digit string, as JS `Number` reads a `\d+` capture. -/
def digitsToNat (ds : List Char) : Nat :=
  ds.foldl (fun acc c => 10 * acc + (c.toNat - '0'.toNat)) 0

/-- Greedy `\d+`: the maximal leading digit run, failing on an empty run. -/
def munchDigits (l : List Char) : Option (List Char × List Char) :=
  let ds := l.takeWhile Char.isDigit
  if ds.isEmpty then none else some (ds, l.dropWhile Char.isDigit)

/-- The literal `:` of the pattern. -/
def expectColon : List Char → Option (List Char)
  | ':' :: rest => some rest
  | _ => none

/-- Match `crop=(\d+):(\d+):(\d+):(\d+)` anchored at the head of the input.
Backtracking never shrinks a `\d+` group here because each group is followed
by `:` or by nothing, and `:` is not a digit, so greedy maximal munch is
exactly the JS regex behaviour. -/
def matchCropAt : List Char → Option CropRegion
  | 'c' :: 'r' :: 'o' :: 'p' :: '=' :: rest =>
    (munchDigits rest).bind fun p1 =>
    (expectColon p1.2).bind fun r2 =>
    (munchDigits r2).bind fun p2 =>
    (expectColon p2.2).bind fun r4 =>
    (munchDigits r4).bind fun p3 =>
    (expectColon p3.2).bind fun r6 =>
    (munchDigits r6).map fun p4 =>
      ⟨digitsToNat p1.1, digitsToNat p2.1, digitsToNat p3.1, digitsToNat p4.1⟩
  | _ => none

/-- All matches of the crop pattern in left-to-right order, as
`String.prototype.match` with the `g` flag returns them. Scanning every
position is equivalent to the regex engine's skip-past-the-match scan: a
match's interior holds only `rop=`, digits and colons, never a `c`, so two
matches can never overlap. -/
def scanCrops : List Char → List CropRegion
  | [] => []
  | c :: cs =>
    match matchCropAt (c :: cs) with
    | some r => r :: scanCrops cs
    | none => scanCrops cs

/-- Prefix test on character lists. -/
def startsWithChars : List Char → List Char → Bool
  | [], _ => true
  | _ :: _, [] => false
  | p :: ps, c :: cs => p == c && startsWithChars ps cs

/-- Substring test, as JS `String.prototype.includes`. -/
def containsSub (pat : List Char) : List Char → Bool
  | [] => startsWithChars pat []
  | c :: cs => startsWithChars pat (c :: cs) || containsSub pat cs

/-- The substring the stderr collector filters on: `stderrLine.includes('crop=')`. -/
def cropKey : List Char := ['c', 'r', 'o', 'p', '=']

/-- The stderr lines the collector appends to the temp log, in arrival order. -/
def cropLogLines (stream : List String) : List String :=
  stream.filter fun l => containsSub cropKey l.data

/-- Concatenation of lines each followed by the `'\n'` that `appendFileSync`
writes after it. -/
def joinLines (ls : List String) : List Char :=
  ls.foldr (fun l acc => l.data ++ ('\n' :: acc)) []

/-- Contents of the temp crop-detection log at stream end. -/
def cropLog (stream : List String) : List Char :=
  joinLines (cropLogLines stream)

/-- Observable outcome of the cropdetect end handler: either the job proceeds
to the second (crop-filtered transcode) stage with the selected region, or it
responds with an HTTP failure status and error message. -/
inductive LetterboxOutcome where
  | stage2 (r : CropRegion)
  | failure (status : Nat) (msg : String)
deriving DecidableEq, Repr

/-- The cropdetect `end` handler. When no stderr line contained `crop=`,
`appendFileSync` never ran, so the temp log file does not exist and
`fs.readFileSync` throws; the surrounding `catch` then sends the 500
response. Otherwise the log is read, all pattern matches are collected, and
either the last match becomes the crop region for stage 2 or — with matches
absent — the 400 "no black bars" response is sent. -/
def letterboxDetectEnd (stream : List String) : LetterboxOutcome :=
  if cropLogLines stream = [] then
    LetterboxOutcome.failure 500 "Failed to analyze crop detection results"
  else
    match (scanCrops (cropLog stream)).getLast? with
    | some r => LetterboxOutcome.stage2 r
    | none => LetterboxOutcome.failure 400 "No black bars detected in the video"

/-! ## Requests, engine outcomes and observable events

The remaining handlers are embedded as functions from the request fields and
the engine's outcomes (supplied by the external ffmpeg/ffprobe binary) to the
ordered list of observable events: subprocess spawns, HTTP responses, file
deliveries. `now` stands for the `Date.now()` value used in generated file
names; it never influences a response body.
-/

/-- Parsed probe result as the handlers consume it: the
`metadata.format?.duration` field (absent when ffprobe reported none) and the
full metadata payload that `res.json` would serialize. -/
structure ProbeMeta where
  duration : Option ℚ
  raw : String
deriving DecidableEq, Repr

/-- `metadata.format?.duration || 0` as used by /probe. -/
def metaDuration (m : ProbeMeta) : ℚ := m.duration.getD 0

/-- Outcome of one ffmpeg transform invocation. On failure,
`partialOutput` records whether the engine had already created bytes at the
output path before dying. -/
inductive EngineResult where
  | success
  | failure (msg : String) (partialOutput : Bool)
deriving DecidableEq, Repr

/-- Observable events of a job, in order. -/
inductive Ev where
  | spawnProbe
  | spawnConvert (fmt : String)
  | spawnExtract (fmt : String) (time : ℚ)
  | respond (status : Nat) (msg : String)
  | respondMeta (status : Nat) (msg : String) (meta : ProbeMeta)
  | respondOk (meta : ProbeMeta)
  | deliver (path : String)
deriving DecidableEq, Repr

/-- Whether a trace spawns any subprocess. -/
def hasSpawn (tr : List Ev) : Bool :=
  tr.any fun e =>
    match e with
    | Ev.spawnProbe => true
    | Ev.spawnConvert _ => true
    | Ev.spawnExtract _ _ => true
    | _ => false

/-- Whether a trace spawns a frame-extraction subprocess. -/
def hasExtract (tr : List Ev) : Bool :=
  tr.any fun e =>
    match e with
    | Ev.spawnExtract _ _ => true
    | _ => false

/-- The image-format allow-list shared by /random-screenshot and /probe. -/
def supportedFormats : List String := ["jpg", "jpeg", "png", "webp", "avif"]

/-- `String.prototype.toLowerCase` as the handlers use it: per-character
lowercasing (the formats compared against the allow-list are ASCII). -/
def toLowerStr (s : String) : String := String.mk (s.data.map Char.toLower)

/-- The 400 body of /random-screenshot for a format outside the allow-list. -/
def screenshotUnsupportedMsg (fmt : String) : String :=
  "Unsupported format: " ++ fmt ++ ". Supported formats: " ++
    String.intercalate ", " supportedFormats

/-- The 400 body of /probe for a thumbnail format outside the allow-list. -/
def probeUnsupportedMsg (fmt : String) : String :=
  "Unsupported thumbnail format: " ++ fmt ++ ". Supported formats: " ++
    String.intercalate ", " supportedFormats

/-- The /random-screenshot duration check `!duration || duration <= 0`
(an absent duration is `undefined`, which is falsy). -/
def durationInvalid : Option ℚ → Bool
  | none => true
  | some d => decide (d ≤ 0)

/-- Thumbnail timestamp resolution of /probe: the requested time if present,
otherwise 1 second for videos longer than 2 seconds and the midpoint
otherwise, the result clamped into `[0.1, duration - 0.1]`. -/
def resolveThumbnailTime (time : Option ℚ) (duration : ℚ) : ℚ :=
  let t : ℚ :=
    match time with
    | none => if 2 < duration then 1 else duration / 2
    | some v => v
  max (1 / 10) (min t (duration - 1 / 10))

/-- Request body of /probe. -/
structure ProbeReq where
  url : Option String
  thumbnail : Bool
  format : Option String
  time : Option ℚ

/-- The /probe handler: probe the URL; on success either return the metadata,
or — when a thumbnail was requested — validate the format against the
allow-list, resolve the timestamp and run the extraction subprocess. Both
thumbnail error responses carry the probed metadata next to the error text. -/
def probeTrace (now : Nat) (req : ProbeReq) (probe : Except String ProbeMeta)
    (extract : Except String Unit) : List Ev :=
  match req.url with
  | none =>
    [Ev.respond 400 "No URL provided. Please provide a \"url\" parameter in the request body."]
  | some _ =>
    Ev.spawnProbe ::
    match probe with
    | Except.error msg => [Ev.respond 500 msg]
    | Except.ok meta =>
      if req.thumbnail then
        let fmt := req.format.getD "jpg"
        let tf := toLowerStr fmt
        if !(supportedFormats.contains tf) then
          [Ev.respondMeta 400 (probeUnsupportedMsg fmt) meta]
        else
          Ev.spawnExtract tf (resolveThumbnailTime req.time (metaDuration meta)) ::
          match extract with
          | Except.error msg =>
            [Ev.respondMeta 500 ("Failed to generate thumbnail: " ++ msg) meta]
          | Except.ok _ =>
            [Ev.deliver ("outputs/" ++ toString now ++ "-thumbnail." ++ tf)]
      else
        [Ev.respondOk meta]

/-- The /random-screenshot handler: reject a missing upload, validate the
format before anything is spawned, probe for the duration, reject an invalid
duration, then extract one frame at `Math.random() * (duration - 1) + 0.5`
(`rnd` stands for the `Math.random()` draw). `probe` carries the
`metadata.format.duration` field the handler reads. -/
def randomScreenshotTrace (now : Nat) (input : Option String) (format : Option String)
    (rnd : ℚ) (probe : Except String (Option ℚ)) (extract : Except String Unit) : List Ev :=
  match input with
  | none => [Ev.respond 400 "No file uploaded"]
  | some _ =>
    let fmt := format.getD "jpg"
    if !(supportedFormats.contains (toLowerStr fmt)) then
      [Ev.respond 400 (screenshotUnsupportedMsg fmt)]
    else
      Ev.spawnProbe ::
      match probe with
      | Except.error msg => [Ev.respond 500 ("Failed to get video metadata: " ++ msg)]
      | Except.ok dur =>
        if durationInvalid dur then
          [Ev.respond 400 "Invalid video duration"]
        else
          Ev.spawnExtract fmt (rnd * (dur.getD 0 - 1) + 1 / 2) ::
          match extract with
          | Except.error msg =>
            [Ev.respond 500 ("Failed to generate screenshot: " ++ msg)]
          | Except.ok _ =>
            [Ev.deliver ("outputs/" ++ toString now ++ "-screenshot." ++ fmt)]

/-- Output path `outputs/${Date.now()}-output.${format}` of /convert. -/
def convertOutputPath (now : Nat) (f : String) : String :=
  "outputs/" ++ toString now ++ "-output." ++ f

/-- The /convert handler, with its filesystem effect. The result pairs the
event trace with the files still on disk when the job ends: on success the
`end` handler unlinks the upload, delivers the output, and the download
callback unlinks the output; on failure the `error` handler unlinks only the
upload, so bytes the engine already wrote at the output path stay behind. -/
def convertJob (now : Nat) (input : Option String) (format : Option String)
    (er : EngineResult) : List Ev × List String :=
  match input with
  | none => ([Ev.respond 400 "No file uploaded"], [])
  | some inp =>
    let f := format.getD "mp4"
    let outPath := convertOutputPath now f
    match er with
    | EngineResult.success =>
      ([Ev.spawnConvert f, Ev.deliver outPath],
       ([inp, outPath].erase inp).erase outPath)
    | EngineResult.failure msg partialOutput =>
      ([Ev.spawnConvert f, Ev.respond 500 msg],
       (if partialOutput then [inp, outPath] else [inp]).erase inp)

/-- The /info handler: `(status, body)` plus the files left on disk. The
uploaded file is unlinked first thing in the ffprobe callback, before the
error/success branch; the success body is the metadata payload verbatim.
`now` is the timestamp the handler prints to its log lines. -/
def infoHandler (_now : Nat) (input : Option String) (probe : Except String String) :
    (Nat × String) × List String :=
  match input with
  | none => ((400, "No file uploaded"), [])
  | some inp =>
    let fsLeft := [inp].erase inp
    match probe with
    | Except.error msg => ((500, msg), fsLeft)
    | Except.ok payload => ((200, payload), fsLeft)






/-- Output path `outputs/${Date.now()}-screenshot.${format}` of /random-screenshot. -/
def screenshotOutputPath (now : Nat) (f : String) : String :=
  "outputs/" ++ toString now ++ "-screenshot." ++ f

/-- Output path `outputs/${Date.now()}-thumbnail.${thumbnailFormat}` of /probe. -/
def thumbnailOutputPath (now : Nat) (tf : String) : String :=
  "outputs/" ++ toString now ++ "-thumbnail." ++ tf

/-- Output path `outputs/${Date.now()}-letterbox-removed.${format}` of /remove-letterbox. -/
def letterboxOutputPath (now : Nat) (f : String) : String :=
  "outputs/" ++ toString now ++ "-letterbox-removed." ++ f

/-- Temp log path `/tmp/cropdetect_${Date.now()}.log` of /remove-letterbox. -/
def cropdetectLogPath (now : Nat) : String :=
  "/tmp/cropdetect_" ++ toString now ++ ".log"

/-- Filesystem effect of /random-screenshot: the files still on disk when the
job ends. Every early exit (missing file, bad format, probe failure, invalid
duration) unlinks the upload; on extraction success the end handler unlinks
the upload, delivers the screenshot and the download callback unlinks it; the
extraction error handler unlinks only the upload, leaving any bytes the
engine already wrote at the output path. -/
def randomScreenshotFS (now : Nat) (input : Option String) (format : Option String)
    (probe : Except String (Option ℚ)) (extract : EngineResult) : List String :=
  match input with
  | none => []
  | some inp =>
    let fmt := format.getD "jpg"
    if !(supportedFormats.contains (toLowerStr fmt)) then
      [inp].erase inp
    else
      match probe with
      | Except.error _ => [inp].erase inp
      | Except.ok dur =>
        if durationInvalid dur then
          [inp].erase inp
        else
          let outPath := screenshotOutputPath now fmt
          match extract with
          | EngineResult.success => ([inp, outPath].erase inp).erase outPath
          | EngineResult.failure _ partialOutput =>
            (if partialOutput then [inp, outPath] else [inp]).erase inp

/-- Filesystem effect of /probe: a URL job uploads nothing, so the only
artifact is the thumbnail. On success the download callback unlinks it (after
an existence check); the thumbnail error handler sends its 500 without
touching the output path, leaving any bytes the engine already wrote there. -/
def probeThumbnailFS (now : Nat) (req : ProbeReq) (probe : Except String ProbeMeta)
    (extract : EngineResult) : List String :=
  match req.url with
  | none => []
  | some _ =>
    match probe with
    | Except.error _ => []
    | Except.ok _ =>
      if req.thumbnail then
        let tf := toLowerStr (req.format.getD "jpg")
        if !(supportedFormats.contains tf) then []
        else
          let outPath := thumbnailOutputPath now tf
          match extract with
          | EngineResult.success => [outPath].erase outPath
          | EngineResult.failure _ partialOutput =>
            if partialOutput then [outPath] else []
      else []

/-- Filesystem effect of /remove-letterbox. The temp log exists at the end of
crop detection iff some stderr line contained "crop="; every branch of the
end, error and catch handlers unlinks the upload and then unlinks the temp
log when it exists (`if (fs.existsSync(tempOutput)) fs.unlinkSync(tempOutput)`
— `List.erase` models this, leaving an absent path alone). The cropdetect
error handler runs before any output exists, so its path also ends clean.
When stage 2 is reached, the success path unlinks everything after delivery,
while the stage-2 error handler never unlinks the output path. -/
def removeLetterboxFS (now : Nat) (input : Option String) (format : Option String)
    (probe : Except String ProbeMeta) (detect : Except String (List String))
    (stage2 : EngineResult) : List String :=
  match input with
  | none => []
  | some inp =>
    match probe with
    | Except.error _ => [inp].erase inp
    | Except.ok _ =>
      match detect with
      | Except.error _ => ([inp].erase inp).erase (cropdetectLogPath now)
      | Except.ok stream =>
        let logFiles : List String :=
          if cropLogLines stream = [] then [] else [cropdetectLogPath now]
        match letterboxDetectEnd stream with
        | LetterboxOutcome.failure _ _ =>
          ((inp :: logFiles).erase inp).erase (cropdetectLogPath now)
        | LetterboxOutcome.stage2 _ =>
          let outPath := letterboxOutputPath now (format.getD "mp4")
          match stage2 with
          | EngineResult.success =>
            (((inp :: (logFiles ++ [outPath])).erase inp).erase
              (cropdetectLogPath now)).erase outPath
          | EngineResult.failure _ partialOutput =>
            ((inp :: (logFiles ++ (if partialOutput then [outPath] else []))).erase
              inp).erase (cropdetectLogPath now)

/-! ## Theorems -/

/-- When the scan of the assembled log has a last match, the end handler
proceeds to stage 2 with exactly that match. -/
theorem detectEnd_stage2_of_getLast (stream : List String) (r : CropRegion)
    (h : (scanCrops (cropLog stream)).getLast? = some r) :
    letterboxDetectEnd stream = LetterboxOutcome.stage2 r := by
  have hne : ¬ cropLogLines stream = [] := by
    intro hc
    unfold cropLog at h
    rw [hc] at h
    simp [joinLines, scanCrops] at h
  unfold letterboxDetectEnd
  rw [if_neg hne, h]

/-- Claim C1: crop detection is last-wins — whenever the diagnostic stream
produced at least one match of the crop signature pattern, the remove-letterbox
operation applies exactly the last match in arrival order as the CropRegion of
the second (crop-filtered transcode) stage. -/
theorem crop_last_candidate_wins (stream : List String) (r : CropRegion)
    (h : (scanCrops (cropLog stream)).getLast? = some r) :
    letterboxDetectEnd stream = LetterboxOutcome.stage2 r :=
  detectEnd_stage2_of_getLast stream r h

theorem crop_last_candidate_wins_witness :
    letterboxDetectEnd ["crop=100:100:0:0", "crop=96:96:2:2"] =
      LetterboxOutcome.stage2 ⟨96, 96, 2, 2⟩ :=
  crop_last_candidate_wins ["crop=100:100:0:0", "crop=96:96:2:2"] ⟨96, 96, 2, 2⟩ (by decide)

/-- Claim C2, counterexample: a diagnostic stream with no line matching the
crop pattern (here: no line at all) does not end in the 400 "No black bars
detected in the video" outcome — the temp log was never created, so reading it
throws and the catch block sends a 500 "Failed to analyze crop detection
results" instead. -/
theorem empty_stream_yields_500_cx :
    letterboxDetectEnd [] =
      LetterboxOutcome.failure 500 "Failed to analyze crop detection results" ∧
    letterboxDetectEnd [] ≠
      LetterboxOutcome.failure 400 "No black bars detected in the video" := by
  decide

/-- Claim C2, amended: when at least one stderr line contains the substring
"crop=" (so the temp log exists) but the log holds no full match of the crop
pattern, the operation ends in the 400 "No black bars detected in the video"
outcome; a stream with no "crop=" line at all instead ends in the 500 shown in
the counterexample. -/
theorem crop_substring_without_match_yields_400 (stream : List String)
    (h1 : cropLogLines stream ≠ [])
    (h2 : scanCrops (cropLog stream) = []) :
    letterboxDetectEnd stream =
      LetterboxOutcome.failure 400 "No black bars detected in the video" := by
  unfold letterboxDetectEnd
  rw [if_neg h1, h2]
  rfl

theorem crop_substring_without_match_yields_400_witness :
    letterboxDetectEnd ["x crop=foo"] =
      LetterboxOutcome.failure 400 "No black bars detected in the video" :=
  crop_substring_without_match_yields_400 ["x crop=foo"] (by decide) (by decide)

/-- Claim C3, counterexample: a /convert job whose engine fails after writing
bytes to the output path leaves that partial output on disk when the job ends —
the error handler unlinks only the uploaded input. -/
theorem convert_failure_leaks_partial_output_cx :
    (convertJob 1 (some "uploads/1-in.mp4") none (EngineResult.failure "boom" true)).2 =
      ["outputs/1-output.mp4"] ∧
    (convertJob 1 (some "uploads/1-in.mp4") none (EngineResult.failure "boom" true)).2 ≠ [] := by
  decide

/-- Every /remove-letterbox exit leaves either nothing on disk or exactly the
stage-2 output path. -/
theorem removeLetterboxFS_cases (now : Nat) (inp : String) (format : Option String)
    (probe : Except String ProbeMeta) (detect : Except String (List String))
    (stage2 : EngineResult)
    (hlo : cropdetectLogPath now ≠ letterboxOutputPath now (format.getD "mp4")) :
    removeLetterboxFS now (some inp) format probe detect stage2 = [] ∨
    removeLetterboxFS now (some inp) format probe detect stage2 =
      [letterboxOutputPath now (format.getD "mp4")] := by
  have hol : letterboxOutputPath now (format.getD "mp4") ≠ cropdetectLogPath now :=
    Ne.symm hlo
  cases probe with
  | error m => left; simp [removeLetterboxFS]
  | ok meta =>
    cases detect with
    | error m => left; simp [removeLetterboxFS]
    | ok st =>
      by_cases hcl : cropLogLines st = [] <;>
        cases hE : letterboxDetectEnd st with
      | stage2 r =>
        cases stage2 with
        | success =>
          left
          simp [removeLetterboxFS, hcl, hE, List.erase_cons_head, List.erase_cons, hol]
        | failure m p =>
          cases p with
          | false =>
            left
            simp [removeLetterboxFS, hcl, hE, List.erase_cons_head]
          | true =>
            right
            simp [removeLetterboxFS, hcl, hE, List.erase_cons_head, List.erase_cons, hol]
      | failure s m =>
        left
        simp [removeLetterboxFS, hcl, hE, List.erase_cons_head]

/-- Claim C3, amended: across all five operations and every modeled exit path,
the uploaded input and the temporary diagnostic log are deleted before the job
ends, and a successful job deletes its output after delivery; but the output
path is not registered for cleanup before the subprocess starts, and no error
handler of an output-producing stage (/convert, /random-screenshot extraction,
/probe thumbnail generation, /remove-letterbox stage 2) deletes it, so an
engine failure after partial output bytes were written leaves exactly that
partial output file behind. -/
theorem artifact_cleanup_behavior
    (now : Nat) (inp u fmtS fmtP : String) (formatC formatL : Option String)
    (t dur : Option ℚ) (stream : List String) (region : CropRegion) (meta : ProbeMeta)
    (hfmtS : toLowerStr fmtS ∈ supportedFormats)
    (hfmtP : toLowerStr fmtP ∈ supportedFormats)
    (hdur : durationInvalid dur = false)
    (hreg : (scanCrops (cropLog stream)).getLast? = some region)
    (hc : inp ≠ convertOutputPath now (formatC.getD "mp4"))
    (hs : inp ≠ screenshotOutputPath now fmtS)
    (hl : inp ≠ letterboxOutputPath now (formatL.getD "mp4"))
    (hlo : cropdetectLogPath now ≠ letterboxOutputPath now (formatL.getD "mp4")) :
    (∀ probeS, (infoHandler now (some inp) probeS).2 = []) ∧
    ((∀ er, inp ∉ (convertJob now (some inp) formatC er).2) ∧
     (convertJob now (some inp) formatC EngineResult.success).2 = [] ∧
     (∀ msg, (convertJob now (some inp) formatC (EngineResult.failure msg true)).2 =
        [convertOutputPath now (formatC.getD "mp4")])) ∧
    ((∀ probeD er, inp ∉ randomScreenshotFS now (some inp) (some fmtS) probeD er) ∧
     randomScreenshotFS now (some inp) (some fmtS) (Except.ok dur)
        EngineResult.success = [] ∧
     (∀ msg, randomScreenshotFS now (some inp) (some fmtS) (Except.ok dur)
        (EngineResult.failure msg true) = [screenshotOutputPath now fmtS])) ∧
    ((∀ probeM, probeThumbnailFS now ⟨some u, true, some fmtP, t⟩ probeM
        EngineResult.success = []) ∧
     (∀ msg, probeThumbnailFS now ⟨some u, true, some fmtP, t⟩ (Except.ok meta)
        (EngineResult.failure msg true) = [thumbnailOutputPath now (toLowerStr fmtP)])) ∧
    ((∀ probeM detect er, inp ∉ removeLetterboxFS now (some inp) formatL probeM detect er) ∧
     (∀ probeM detect er,
        cropdetectLogPath now ∉ removeLetterboxFS now (some inp) formatL probeM detect er) ∧
     removeLetterboxFS now (some inp) formatL (Except.ok meta) (Except.ok stream)
        EngineResult.success = [] ∧
     (∀ msg, removeLetterboxFS now (some inp) formatL (Except.ok meta) (Except.ok stream)
        (EngineResult.failure msg true) = [letterboxOutputPath now (formatL.getD "mp4")])) := by
  have hE := detectEnd_stage2_of_getLast stream region hreg
  have hne : ¬ cropLogLines stream = [] := by
    intro hcl
    unfold letterboxDetectEnd at hE
    rw [if_pos hcl] at hE
    exact LetterboxOutcome.noConfusion hE
  refine ⟨?_, ⟨?_, ?_, ?_⟩, ⟨?_, ?_, ?_⟩, ⟨?_, ?_⟩, ⟨?_, ?_, ?_, ?_⟩⟩
  · intro probeS
    cases probeS <;> simp [infoHandler]
  · intro er
    cases er with
    | success => simp [convertJob, List.erase_cons_head]
    | failure m p => cases p <;> simp [convertJob, List.erase_cons_head, hc]
  · simp [convertJob, List.erase_cons_head]
  · intro msg
    simp [convertJob, List.erase_cons_head]
  · intro probeD er
    cases probeD with
    | error m => simp [randomScreenshotFS, hfmtS]
    | ok dur2 =>
      cases hdi : durationInvalid dur2 with
      | true => simp [randomScreenshotFS, hfmtS, hdi]
      | false =>
        cases er with
        | success => simp [randomScreenshotFS, hfmtS, hdi, List.erase_cons_head]
        | failure m p =>
          cases p <;> simp [randomScreenshotFS, hfmtS, hdi, List.erase_cons_head, hs]
  · simp [randomScreenshotFS, hfmtS, hdur, List.erase_cons_head]
  · intro msg
    simp [randomScreenshotFS, hfmtS, hdur, List.erase_cons_head]
  · intro probeM
    cases probeM <;> simp [probeThumbnailFS, hfmtP, List.erase_cons_head]
  · intro msg
    simp [probeThumbnailFS, hfmtP]
  · intro probeM detect er
    rcases removeLetterboxFS_cases now inp formatL probeM detect er hlo with h | h <;>
      rw [h] <;> simp [hl]
  · intro probeM detect er
    rcases removeLetterboxFS_cases now inp formatL probeM detect er hlo with h | h <;>
      rw [h] <;> simp [hlo]
  · simp [removeLetterboxFS, hne, hE, List.erase_cons_head]
  · intro msg
    simp [removeLetterboxFS, hne, hE, List.erase_cons_head]

theorem artifact_cleanup_behavior_witness :
    removeLetterboxFS 7 (some "uploads/7-v.mp4") none (Except.ok ⟨some 10, "M"⟩)
        (Except.ok ["crop=96:96:2:2"]) (EngineResult.failure "boom" true) =
      [letterboxOutputPath 7 "mp4"] :=
  (artifact_cleanup_behavior 7 "uploads/7-v.mp4" "http://e/v.mp4" "png" "png" none none
    none (some 10) ["crop=96:96:2:2"] ⟨96, 96, 2, 2⟩ ⟨some 10, "M"⟩
    (by decide) (by decide) (by decide) (by decide) (by decide) (by decide)
    (by decide) (by decide)).2.2.2.2.2.2.2 "boom"

/-- Claim C4: the /probe thumbnail timestamp defaults to 1 second when the
video is longer than 2 seconds and to half the duration otherwise, and the
result is clamped into [0.1, duration - 0.1]: duration 10 with no time gives
1, duration 1 with no time gives 0.5, time 15 with duration 10 clamps to 9.9,
and time -5 clamps to 0.1. -/
theorem thumbnail_time_resolution_examples :
    resolveThumbnailTime none 10 = 1 ∧
    resolveThumbnailTime none 1 = 1 / 2 ∧
    resolveThumbnailTime (some 15) 10 = 99 / 10 ∧
    resolveThumbnailTime (some (-5)) 10 = 1 / 10 := by
  refine ⟨?_, ?_, ?_, ?_⟩ <;> norm_num [resolveThumbnailTime]

/-- Claim C5, counterexample: a probe-with-thumbnail request with the
out-of-allow-list format "bmp" is rejected with a 400 only after the metadata
probe subprocess has already been spawned — not before any subprocess. -/
theorem probe_thumbnail_format_checked_after_probe_cx :
    probeTrace 3 ⟨some "http://e/v.mp4", true, some "bmp", none⟩
        (Except.ok ⟨some 10, "META"⟩) (Except.ok ()) =
      [Ev.spawnProbe, Ev.respondMeta 400 (probeUnsupportedMsg "bmp") ⟨some 10, "META"⟩] ∧
    Ev.spawnProbe ∈ probeTrace 3 ⟨some "http://e/v.mp4", true, some "bmp", none⟩
        (Except.ok ⟨some 10, "META"⟩) (Except.ok ()) := by
  decide

/-- Claim C5, amended: a format outside {jpg, jpeg, png, webp, avif} is
rejected with a 400 — by /random-screenshot before any subprocess is spawned,
and by /probe after the metadata probe subprocess but before the
frame-extraction subprocess; a format in the allow-list is accepted and
reaches frame extraction. -/
theorem image_format_allowlist_validation (fmt : String) :
    (supportedFormats.contains (toLowerStr fmt) = false →
      (∀ now inp rnd probe extract,
        randomScreenshotTrace now (some inp) (some fmt) rnd probe extract =
          [Ev.respond 400 (screenshotUnsupportedMsg fmt)]) ∧
      (∀ now u t meta extract,
        probeTrace now ⟨some u, true, some fmt, t⟩ (Except.ok meta) extract =
          [Ev.spawnProbe, Ev.respondMeta 400 (probeUnsupportedMsg fmt) meta])) ∧
    (supportedFormats.contains (toLowerStr fmt) = true →
      ∀ now inp rnd extract,
        hasExtract (randomScreenshotTrace now (some inp) (some fmt) rnd
          (Except.ok (some 10)) extract) = true) := by
  constructor
  · intro h
    have h' : toLowerStr fmt ∉ supportedFormats := by simpa using h
    constructor
    · intro now inp rnd probe extract
      simp [randomScreenshotTrace, h']
    · intro now u t meta extract
      simp [probeTrace, h']
  · intro h now inp rnd extract
    have h' : toLowerStr fmt ∈ supportedFormats := by simpa using h
    have hdur : durationInvalid (some 10) = false := by decide
    cases extract <;> simp [randomScreenshotTrace, h', hdur, hasExtract]

theorem image_format_allowlist_validation_witness :
    randomScreenshotTrace 4 (some "uploads/4-v.mp4") (some "bmp") 0 (Except.ok (some 10))
        (Except.ok ()) = [Ev.respond 400 (screenshotUnsupportedMsg "bmp")] :=
  ((image_format_allowlist_validation "bmp").1 (by decide)).1 4 "uploads/4-v.mp4" 0
    (Except.ok (some 10)) (Except.ok ())

/-- Claim C7: a missing upload is answered 400 "No file uploaded" with no
subprocess at all, and a /random-screenshot probe result with absent or
non-positive duration is answered 400 "Invalid video duration" with no
frame-extraction subprocess ever spawned. -/
theorem validation_short_circuit (d : Option ℚ) (hd : durationInvalid d = true) :
    (∀ now format er,
      convertJob now none format er = ([Ev.respond 400 "No file uploaded"], []) ∧
      hasSpawn (convertJob now none format er).1 = false) ∧
    (∀ now inp rnd extract,
      randomScreenshotTrace now (some inp) none rnd (Except.ok d) extract =
        [Ev.spawnProbe, Ev.respond 400 "Invalid video duration"] ∧
      hasExtract (randomScreenshotTrace now (some inp) none rnd (Except.ok d) extract)
        = false) := by
  constructor
  · intro now format er
    constructor <;> simp [convertJob, hasSpawn]
  · intro now inp rnd extract
    have hjpg : toLowerStr "jpg" ∈ supportedFormats := by decide
    constructor <;> simp [randomScreenshotTrace, hjpg, hd, hasExtract]

theorem validation_short_circuit_witness :
    randomScreenshotTrace 5 (some "uploads/5-v.mp4") none 0 (Except.ok (some 0))
        (Except.ok ()) = [Ev.spawnProbe, Ev.respond 400 "Invalid video duration"] :=
  ((validation_short_circuit (some 0) (by decide)).2 5 "uploads/5-v.mp4" 0 (Except.ok ())).1

/-- Claim C8: /convert defaults the target format to "mp4", passes any
supplied format string to the engine without allow-list validation, and
reports an engine failure as a 500 carrying the engine's message verbatim. -/
theorem convert_format_freeform (now : Nat) (inp f msg : String) (p : Bool)
    (er : EngineResult) :
    (convertJob now (some inp) none er).1.head? = some (Ev.spawnConvert "mp4") ∧
    (convertJob now (some inp) (some f) er).1.head? = some (Ev.spawnConvert f) ∧
    (convertJob now (some inp) (some f) (EngineResult.failure msg p)).1 =
      [Ev.spawnConvert f, Ev.respond 500 msg] := by
  refine ⟨?_, ?_, ?_⟩ <;> cases er <;> simp [convertJob]

/-- Claim C9: the /info response is a function of the probe result alone —
two invocations with the same engine output produce identical responses
whatever the ambient timestamps, and the success body is the metadata payload
verbatim. -/
theorem probe_response_deterministic (n1 n2 : Nat) (input : Option String)
    (probe : Except String String) (inp payload : String) :
    infoHandler n1 input probe = infoHandler n2 input probe ∧
    (infoHandler n1 (some inp) (Except.ok payload)).1 = (200, payload) := by
  constructor
  · cases input <;> cases probe <;> rfl
  · rfl

/-- Claim C10: when /probe rejects an out-of-allow-list thumbnail format the
400 body carries the probed metadata next to the error, and when thumbnail
generation fails after a successful probe the 500 body likewise carries the
metadata — a thumbnail failure never discards the probe result. -/
theorem probe_metadata_retained_on_thumbnail_errors (now : Nat) (u fb fg emsg : String)
    (meta : ProbeMeta) (t : Option ℚ)
    (h1 : supportedFormats.contains (toLowerStr fb) = false)
    (h2 : supportedFormats.contains (toLowerStr fg) = true) :
    (∀ extract, probeTrace now ⟨some u, true, some fb, t⟩ (Except.ok meta) extract =
      [Ev.spawnProbe, Ev.respondMeta 400 (probeUnsupportedMsg fb) meta]) ∧
    probeTrace now ⟨some u, true, some fg, t⟩ (Except.ok meta) (Except.error emsg) =
      [Ev.spawnProbe,
       Ev.spawnExtract (toLowerStr fg) (resolveThumbnailTime t (metaDuration meta)),
       Ev.respondMeta 500 ("Failed to generate thumbnail: " ++ emsg) meta] := by
  have h1' : toLowerStr fb ∉ supportedFormats := by simpa using h1
  have h2' : toLowerStr fg ∈ supportedFormats := by simpa using h2
  constructor
  · intro extract
    simp [probeTrace, h1']
  · simp [probeTrace, h2']

theorem probe_metadata_retained_on_thumbnail_errors_witness :
    probeTrace 6 ⟨some "http://e/w.mp4", true, some "png", none⟩
        (Except.ok ⟨some 10, "M"⟩) (Except.error "boom") =
      [Ev.spawnProbe,
       Ev.spawnExtract (toLowerStr "png")
         (resolveThumbnailTime none (metaDuration ⟨some 10, "M"⟩)),
       Ev.respondMeta 500 ("Failed to generate thumbnail: " ++ "boom") ⟨some 10, "M"⟩] :=
  (probe_metadata_retained_on_thumbnail_errors 6 "http://e/w.mp4" "bmp" "png" "boom"
    ⟨some 10, "M"⟩ none (by decide) (by decide)).2

/-- Claim C6, counterexample: a degenerate crop candidate (width and height
zero) is not treated as "no crop detected" — it is selected and passed to the
second stage as the crop filter. -/
theorem degenerate_crop_propagates_cx :
    letterboxDetectEnd ["crop=0:0:0:0"] = LetterboxOutcome.stage2 ⟨0, 0, 0, 0⟩ ∧
    letterboxDetectEnd ["crop=0:0:0:0"] ≠
      LetterboxOutcome.failure 400 "No black bars detected in the video" := by
  decide

/-- Claim C6, amended: a detected candidate whose width or height is zero is
selected and passed to stage 2 exactly like any other candidate; only the
absence of any pattern match yields a failure outcome. -/
theorem degenerate_crop_still_selected (stream : List String) (r : CropRegion)
    (h : (scanCrops (cropLog stream)).getLast? = some r)
    (_hdeg : r.width = 0 ∨ r.height = 0) :
    letterboxDetectEnd stream = LetterboxOutcome.stage2 r ∧
    ∀ s m, letterboxDetectEnd stream ≠ LetterboxOutcome.failure s m := by
  have h2 := detectEnd_stage2_of_getLast stream r h
  refine ⟨h2, fun s m hc => ?_⟩
  rw [h2] at hc
  exact LetterboxOutcome.noConfusion hc

theorem degenerate_crop_still_selected_witness :
    letterboxDetectEnd ["crop=0:0:4:4"] = LetterboxOutcome.stage2 ⟨0, 0, 4, 4⟩ :=
  (degenerate_crop_still_selected ["crop=0:0:4:4"] ⟨0, 0, 4, 4⟩ (by decide)
    (Or.inl rfl)).1
